import Mathlib

/-!
Shallow embedding of the notebook
`example/cms-physics-coffea/cms-physics-coffea.ipynb` from the
floability-cli repository.

The notebook is a ~40-line orchestration script.  Cell 1 installs a
warnings filter (`warnings.filterwarnings("error", module="coffea.*")`),
then selects an execution backend via the boolean `use_taskvine`: either a
TaskVine `DaskVine` manager named from the `USER` environment variable, or
a generic `distributed.Client`.  Cell 2 resolves `data/small_data.root` to
an absolute `file://` URL, reads the `/Events` tree through
`NanoEventsFactory.from_root` with dataset metadata `"SingleMu"`, builds a
lazy dask histogram `q1_hist` with one regular axis
`Reg(100, 0, 200, name="met", label="$E_{T}^{miss}$ [GeV]")`, fills it with
the `events.MET.pt` column, and materializes it with
`q1_hist.compute(**executor_args)`.

The external libraries (os, warnings, coffea, dask-awkward, hist, TaskVine,
distributed) are modelled by their documented contracts at exactly the
granularity the script exercises: a file system maps URLs to optional event
lists, event values are exact rationals, a lazy histogram is a deferred
node holding the axis specification and unevaluated column references, and
materialization is an `Except`-producing evaluation that also records a
trace of observable actions (backend creation, file reads, materialization,
file writes).
-/

/-- Per-event record: the script only touches the missing-transverse-energy
magnitude column `events.MET.pt`.  Values are modelled as exact rationals. -/
structure Event where
  met_pt : Rat
deriving DecidableEq, Repr

/-- Contents of one dataset file: the list of events in its `/Events` tree. -/
abbrev FileData := List Event

/-- File system model: maps a URL to the file's parsed contents, or `none`
when no file exists at that location. -/
abbrev FileSys := String → Option FileData

/-- Process environment model, for `os.environ` lookups. -/
abbrev Env := String → Option String

/-- Errors the script can propagate (it defines no handlers of its own). -/
inductive PyErr where
  | keyError (key : String)
  | fileNotFoundError (path : String)
  | warningEscalated (moduleName : String)
deriving DecidableEq, Repr

/-- Observable actions of a run, recorded in order of occurrence. -/
inductive Act where
  | vineManagerCreated (name : String)
  | clientCreated
  | readFile (url : String)
  | materializeHist
  | writeFile (path : String)
deriving DecidableEq, Repr

/-- Tests whether a path is absolute, i.e. begins with the separator
(model of `os.path.isabs`). -/
def isAbsolutePath (p : String) : Bool :=
  match p.data with
  | [] => false
  | c :: _ => c = '/'

/-- Model of `os.path.abspath` for the paths the script uses: a relative
path is resolved against the current working directory `cwd`. -/
def os_path_abspath (cwd p : String) : String :=
  if isAbsolutePath p then p else cwd ++ "/" ++ p

/-- The script's `data_abs_path = os.path.abspath("data/small_data.root")`. -/
def data_abs_path (cwd : String) : String :=
  os_path_abspath cwd "data/small_data.root"

/-- The script's `data_url = f"file://\x7bdata_abs_path\x7d"`. -/
def data_url (cwd : String) : String :=
  "file://" ++ data_abs_path cwd

/-- Dataset source handed to the event reader: the URL, the tree name
inside the file, and the dataset-name metadata string. -/
structure DataSource where
  url : String
  treename : String
  metadata_dataset : String
deriving DecidableEq, Repr

/-- The argument of the script's `NanoEventsFactory.from_root` call:
`\x7bdata_file: "/Events"\x7d` with `metadata=\x7b"dataset": "SingleMu"\x7d`,
where `data_file = (data_url,)`. -/
structure FromRootCall where
  files : List (String × String)
  metadata_dataset : String
deriving DecidableEq, Repr

/-- The concrete `from_root` invocation the script performs. -/
def from_root_call (cwd : String) : FromRootCall :=
  { files := [(data_url cwd, "/Events")], metadata_dataset := "SingleMu" }

/-- The lazy event source produced by `from_root(...).events()`: reading is
deferred, so this is only a reference to the data, not its contents. -/
def events_source (cwd : String) : DataSource :=
  { url := data_url cwd, treename := "/Events", metadata_dataset := "SingleMu" }

/-- Deferred column expression of the dask-awkward graph.  The script uses
a single column, `events.MET.pt`, of a lazily read dataset. -/
inductive ColExpr where
  | metPt (src : DataSource)
deriving DecidableEq, Repr

/-- Immutable descriptor of one regular numeric binning axis, as built by
`hda.Hist.new.Reg(bins, lower, upper, name=..., label=...)`. -/
structure RegAxis where
  bins : Nat
  lower : Rat
  upper : Rat
  name : String
  label : String
deriving DecidableEq, Repr

/-- Model of `hda.Hist.new.Reg`: constructs the axis descriptor. -/
def Reg (bins : Nat) (lower upper : Rat) (name label : String) : RegAxis :=
  { bins := bins, lower := lower, upper := upper, name := name, label := label }

/-- Lazy histogram: a deferred computation node holding the axis
specification and the unevaluated column expressions to fill from.  It has
no bin-contents field; contents exist only after materialization. -/
structure LazyHist where
  axis : RegAxis
  fills : List ColExpr
deriving DecidableEq, Repr

/-- Model of `.Double()`: fixes the storage and yields the (empty-fill)
lazy histogram for the axis. -/
def Double (a : RegAxis) : LazyHist :=
  { axis := a, fills := [] }

/-- Model of `.fill(column)`: records one more column expression to fill
from; nothing is evaluated. -/
def fill (h : LazyHist) (c : ColExpr) : LazyHist :=
  { axis := h.axis, fills := h.fills ++ [c] }

/-- The script's `q1_hist`: a 100-bin regular axis on `[0, 200)` named
`met`, double storage, filled (lazily) with the MET column. -/
def q1_hist (cwd : String) : LazyHist :=
  fill (Double (Reg 100 0 200 "met" "$E_\x7bT\x7d^\x7bmiss\x7d$ [GeV]"))
    (ColExpr.metPt (events_source cwd))

/-- Materialized histogram: the axis together with the per-bin counts. -/
structure MaterializedHist where
  axis : RegAxis
  counts : List Nat
deriving DecidableEq, Repr

/-- Regular-axis binning: a value lands in bin `i` exactly when it lies in
the half-open range `[lower, upper)`; values outside go to flow and are
not counted in any regular bin (`none`). -/
def binIndex (a : RegAxis) (x : Rat) : Option Nat :=
  if a.lower ≤ x ∧ x < a.upper ∧ 0 < a.bins then
    some ((x - a.lower) * (a.bins : Rat) / (a.upper - a.lower)).floor.toNat
  else none

/-- Bin contents obtained by filling the axis with a list of values. -/
def fillCounts (a : RegAxis) (xs : List Rat) : List Nat :=
  (List.range a.bins).map fun i => (xs.filter fun x => binIndex a x = some i).length

/-- TaskVine manager handle, `DaskVine(name=...)`. -/
structure DaskVine where
  name : String
deriving DecidableEq, Repr

/-- Model of `DaskVine(name=f"\x7bos.environ["USER"]\x7d-coffea-example-4")`
given the resolved `USER` value. -/
def vine_manager (user : String) : DaskVine :=
  { name := user ++ "-coffea-example-4" }

/-- The scheduler chosen by the backend switch. -/
inductive Scheduler where
  | taskvine (m : DaskVine)
  | distributedClient
deriving DecidableEq, Repr

/-- Keyword options passed to the single `compute` call.  The TaskVine
branch passes `\x7b"scheduler": vine_manager, "worker_transfers": True\x7d`;
the other branch passes `\x7b\x7d` (library defaults). -/
structure ExecutorArgs where
  scheduler : Option Scheduler
  worker_transfers : Bool
deriving DecidableEq, Repr

/-- The literal value of the script's `use_taskvine` flag. -/
def use_taskvine : Bool := true

/-- Cell-1 backend setup: with the flag set, look up `USER` (a missing key
raises `KeyError`), create the named `DaskVine` manager and pass it with
`worker_transfers=True`; otherwise create a generic `distributed.Client`
and pass no options. -/
def setupBackend (flag : Bool) (env : Env) :
    Except PyErr (ExecutorArgs × List Act) :=
  if flag then
    match env "USER" with
    | none => Except.error (PyErr.keyError "USER")
    | some u =>
      let m := vine_manager u
      Except.ok ({ scheduler := some (Scheduler.taskvine m), worker_transfers := true },
        [Act.vineManagerCreated m.name])
  else
    Except.ok ({ scheduler := none, worker_transfers := false }, [Act.clientCreated])

/-- Evaluation of one deferred column at materialization time: the file is
read (a missing file is an error) and the MET column extracted. -/
def evalColumn (fs : FileSys) : ColExpr → Except PyErr (List Rat × List Act)
  | ColExpr.metPt src =>
    match fs src.url with
    | none => Except.error (PyErr.fileNotFoundError src.url)
    | some evs => Except.ok (evs.map Event.met_pt, [Act.readFile src.url])

/-- Evaluation of all recorded fills, all-or-nothing: the first failing
column aborts the whole evaluation. -/
def evalFills (fs : FileSys) : List ColExpr → Except PyErr (List Rat × List Act)
  | [] => Except.ok ([], [])
  | c :: cs => do
    let (xs, as₁) ← evalColumn fs c
    let (ys, as₂) ← evalFills fs cs
    Except.ok (xs ++ ys, as₁ ++ as₂)

/-- Model of the blocking `q1_hist.compute(**executor_args)` call: evaluate
every recorded fill and bin the values.  The executor options select how
the graph is executed, not what it computes, so the resulting contents do
not depend on them. -/
def compute (fs : FileSys) (h : LazyHist) (_args : ExecutorArgs) :
    Except PyErr (MaterializedHist × List Act) := do
  let (xs, as) ← evalFills fs h.fills
  Except.ok ({ axis := h.axis, counts := fillCounts h.axis xs }, as ++ [Act.materializeHist])

/-- Actions a run performs before the explicit compute step is reached:
only the backend setup runs before cell 2's pipeline is materialized. -/
def preComputeTrace (flag : Bool) (env : Env) : List Act :=
  match setupBackend flag env with
  | Except.error _ => []
  | Except.ok (_, as) => as

/-- One end-to-end execution of the script: backend setup, lazy pipeline
construction, then the single blocking compute.  Returns the ordered trace
of observable actions and either the materialized histogram or the first
propagated error. -/
def run (flag : Bool) (env : Env) (cwd : String) (fs : FileSys) :
    List Act × Except PyErr MaterializedHist :=
  match setupBackend flag env with
  | Except.error e => ([], Except.error e)
  | Except.ok (args, as₀) =>
    match compute fs (q1_hist cwd) args with
    | Except.error e => (as₀, Except.error e)
    | Except.ok (m, as₁) => (as₀ ++ as₁, Except.ok m)

/-- Boolean test for the ok-ness of a run result. -/
def isOkB : Except PyErr MaterializedHist → Bool
  | Except.ok _ => true
  | Except.error _ => false

/-- Tests whether an action reads data or materializes the histogram. -/
def isReadOrMaterialize : Act → Bool
  | Act.readFile _ => true
  | Act.materializeHist => true
  | _ => false

/-- Tests whether an action persists a file. -/
def isWriteFile : Act → Bool
  | Act.writeFile _ => true
  | _ => false

/-- Tests whether an action is the materialization step. -/
def isMaterializeAct : Act → Bool
  | Act.materializeHist => true
  | _ => false

/-- One entry of the process-wide warnings-filter list: an action string
and a predicate on the warning's module name (the compiled module regex). -/
structure WarnFilter where
  action : String
  matchesModule : String → Bool

/-- Model of `warnings.filterwarnings(action, module=...)` with the default
`append=False`: the new filter is inserted at the front of the list, so it
takes precedence over all pre-existing filters. -/
def filterwarnings (action : String) (pred : String → Bool)
    (filters : List WarnFilter) : List WarnFilter :=
  { action := action, matchesModule := pred } :: filters

/-- Model of `re.match` for the one pattern the script installs,
`"coffea.*"`: an anchored match of the literal `coffea` followed by any
characters, i.e. exactly the module names having `coffea` as a prefix. -/
def reMatchCoffeaStar (moduleName : String) : Bool :=
  match moduleName.data, "coffea".data with
  | _, [] => true
  | [], _ :: _ => false
  | c :: cs, d :: ds => coffeaMatchAux (c :: cs) (d :: ds)
where
  /-- Checks that the pattern characters are an initial segment of the
  module name. -/
  coffeaMatchAux : List Char → List Char → Bool
  | _, [] => true
  | [], _ :: _ => false
  | c :: cs, d :: ds => c = d && coffeaMatchAux cs ds

/-- Dispatch of an emitted warning against the filter list: the first
matching filter's action applies; with no match the default action holds. -/
def warningAction (filters : List WarnFilter) (moduleName : String) : String :=
  match filters.find? fun f => f.matchesModule moduleName with
  | some f => f.action
  | none => "default"

/-- The warnings-filter state after cell 1 runs
`warnings.filterwarnings("error", module="coffea.*")`, starting from any
pre-existing filter list. -/
def scriptFilters (initial : List WarnFilter) : List WarnFilter :=
  filterwarnings "error" reMatchCoffeaStar initial

/-- Raising a warning under a filter state: the `"error"` action escalates
it to an exception; the script installs no handler, so that exception
aborts execution. -/
def raiseWarning (filters : List WarnFilter) (moduleName : String) :
    Except PyErr Unit :=
  if warningAction filters moduleName = "error" then
    Except.error (PyErr.warningEscalated moduleName)
  else
    Except.ok ()

/-! Concrete fixtures used by the witness theorems. -/

/-- Executor options of the non-TaskVine branch (library defaults). -/
def noArgs : ExecutorArgs := { scheduler := none, worker_transfers := false }

/-- A file system in which every URL resolves to a one-event file. -/
def fsAll : FileSys := fun _ => some [{ met_pt := 50 }]

/-- A file system with no files at all. -/
def fsNone : FileSys := fun _ => none

/-- A file system holding only the script's data file. -/
def fsOnlyData : FileSys := fun u =>
  if u = data_url "/w" then some [{ met_pt := 50 }] else none

/-- An environment with `USER` set to `alice`. -/
def envAlice : Env := fun k => if k = "USER" then some "alice" else none

/-- An environment with no variables set. -/
def envEmpty : Env := fun _ => none

/-- The axis the script declares. -/
def q1Axis : RegAxis := Reg 100 0 200 "met" "$E_\x7bT\x7d^\x7bmiss\x7d$ [GeV]"

/-- The histogram materialized from the one-event fixture file. -/
def histW : MaterializedHist :=
  { axis := q1Axis, counts := fillCounts q1Axis [(50 : Rat)] }

/-- The action trace of a successful compute over the fixture file. -/
def actsW : List Act := [Act.readFile (data_url "/w"), Act.materializeHist]

/-! Helper lemmas shared by several claim proofs. -/

/-- A successful compute call decomposes as: a successful all-or-nothing
evaluation of every fill, the bin contents of all evaluated values, and the
materialization action appended to the trace. -/
theorem compute_ok_shape {fs : FileSys} {h : LazyHist} {args : ExecutorArgs}
    {m : MaterializedHist} {as : List Act}
    (hok : compute fs h args = Except.ok (m, as)) :
    ∃ xs acts, evalFills fs h.fills = Except.ok (xs, acts) ∧
      m = { axis := h.axis, counts := fillCounts h.axis xs } ∧
      as = acts ++ [Act.materializeHist] := by
  unfold compute at hok
  cases hev : evalFills fs h.fills with
  | error e =>
    rw [hev] at hok
    simp [bind, Except.bind] at hok
  | ok p =>
    obtain ⟨xs, acts⟩ := p
    rw [hev] at hok
    simp only [bind, Except.bind, Except.ok.injEq, Prod.mk.injEq] at hok
    exact ⟨xs, acts, rfl, hok.1.symm, hok.2.symm⟩

/-- The fills recorded in the script's lazy histogram: exactly the single
MET column of the lazily read data source. -/
theorem q1_hist_fills (cwd : String) :
    (q1_hist cwd).fills = [ColExpr.metPt (events_source cwd)] := by
  simp [q1_hist, fill, Double]

/-- A regular axis bins a value exactly when it lies in the half-open
range and the axis has at least one bin. -/
theorem binIndex_isSome_iff (a : RegAxis) (x : Rat) :
    (binIndex a x).isSome = true ↔ (a.lower ≤ x ∧ x < a.upper ∧ 0 < a.bins) := by
  unfold binIndex
  split <;> simp_all

/-- Filling an axis yields one count per bin. -/
theorem fillCounts_length (a : RegAxis) (xs : List Rat) :
    (fillCounts a xs).length = a.bins := by
  simp [fillCounts]

/-! Claim theorems. -/

/-- Claim C1: the histogram produced by the script always has exactly 100
regular bins on the axis named `met` spanning the half-open range
`[0, 200)`, regardless of the input data. -/
theorem C1_hundred_bins (cwd : String) (fs : FileSys) (args : ExecutorArgs)
    (m : MaterializedHist) (as : List Act)
    (h : compute fs (q1_hist cwd) args = Except.ok (m, as)) :
    m.axis.bins = 100 ∧ m.axis.name = "met" ∧ m.axis.lower = 0 ∧
      m.axis.upper = 200 ∧ m.counts.length = 100 ∧
      ∀ x : Rat, (binIndex m.axis x).isSome = true ↔ (0 ≤ x ∧ x < 200) := by
  obtain ⟨xs, acts, hev, hm, has⟩ := compute_ok_shape h
  subst hm
  refine ⟨rfl, rfl, rfl, rfl, fillCounts_length _ _, fun x => ?_⟩
  rw [binIndex_isSome_iff]
  show (0 : Rat) ≤ x ∧ x < 200 ∧ 0 < 100 ↔ (0 ≤ x ∧ x < 200)
  constructor
  · exact fun hx => ⟨hx.1, hx.2.1⟩
  · exact fun hx => ⟨hx.1, hx.2, by decide⟩

/-- Witness for C1 at a concrete file system and working directory. -/
theorem C1_hundred_bins_witness :
    (compute fsAll (q1_hist "/w") noArgs = Except.ok (histW, actsW)) ∧
    (histW.axis.bins = 100 ∧ histW.axis.name = "met" ∧ histW.axis.lower = 0 ∧
      histW.axis.upper = 200 ∧ histW.counts.length = 100 ∧
      ∀ x : Rat, (binIndex histW.axis x).isSome = true ↔ (0 ≤ x ∧ x < 200)) :=
  ⟨rfl, C1_hundred_bins "/w" fsAll noArgs histW actsW rfl⟩

/-- Claim C6: the input passed to the event reader is always the local
relative path `data/small_data.root` resolved to an absolute path and
prefixed with `file://`, mapped to the tree name `/Events`, and tagged with
the dataset-name metadata string `SingleMu`. -/
theorem C6_reader_input (cwd : String) :
    from_root_call cwd =
      { files := [(data_url cwd, "/Events")], metadata_dataset := "SingleMu" } ∧
    data_url cwd = "file://" ++ os_path_abspath cwd "data/small_data.root" ∧
    (isAbsolutePath cwd = true → isAbsolutePath (data_abs_path cwd) = true) := by
  refine ⟨rfl, rfl, fun hc => ?_⟩
  unfold data_abs_path os_path_abspath
  rw [if_neg (by decide)]
  unfold isAbsolutePath at hc ⊢
  rw [String.data_append, String.data_append]
  cases hd : cwd.data with
  | nil => rw [hd] at hc; exact absurd hc (by decide)
  | cons c cs =>
    rw [hd] at hc
    simpa using hc

/-- Witness for C6 at a concrete absolute working directory. -/
theorem C6_reader_input_witness :
    (from_root_call "/w" =
      { files := [(data_url "/w", "/Events")], metadata_dataset := "SingleMu" } ∧
    data_url "/w" = "file://" ++ os_path_abspath "/w" "data/small_data.root" ∧
    (isAbsolutePath "/w" = true → isAbsolutePath (data_abs_path "/w") = true)) ∧
    isAbsolutePath "/w" = true ∧ isAbsolutePath (data_abs_path "/w") = true :=
  ⟨C6_reader_input "/w", by decide, (C6_reader_input "/w").2.2 (by decide)⟩

/-- Counterexample to claim C7 as stated: the axis label written in the
script is `$E_\x7bT\x7d^\x7bmiss\x7d$ [GeV]`, which differs from the
claimed exact string `$E_T^\x7bmiss\x7d$ [GeV]`. -/
theorem C7_label_counterexample :
    (q1_hist "/w").axis.label ≠ "$E_T^\x7bmiss\x7d$ [GeV]" := by
  decide

/-- Claim C7, amended: the histogram axis label string is exactly
`$E_\x7bT\x7d^\x7bmiss\x7d$ [GeV]` (the subscript `T` is braced), and the
script produces no persisted file output: no run trace ever contains a
file-write action. -/
theorem C7_label_and_no_file_output (cwd : String) (flag : Bool) (env : Env)
    (fs : FileSys) :
    (q1_hist cwd).axis.label = "$E_\x7bT\x7d^\x7bmiss\x7d$ [GeV]" ∧
    ((run flag env cwd fs).1.all fun a => !isWriteFile a) = true := by
  refine ⟨rfl, ?_⟩
  cases flag <;> cases henv : env "USER" <;> cases hfs : fs (data_url cwd) <;>
    simp [run, setupBackend, compute, evalFills, evalColumn, q1_hist, fill,
      Double, events_source, henv, hfs, bind, Except.bind, isWriteFile]

/-- Claim C9: the lazy histogram `q1_hist` is a deferred computation node —
its fills are stored as an unevaluated column reference — and no file read
or materialization ever occurs before the explicit compute step: the trace
emitted before compute contains neither action, and it is exactly the
initial segment of every full run trace. -/
theorem C9_deferred_until_compute (cwd : String) (flag : Bool) (env : Env)
    (fs : FileSys) :
    (q1_hist cwd).fills = [ColExpr.metPt (events_source cwd)] ∧
    ((preComputeTrace flag env).all fun a => !isReadOrMaterialize a) = true ∧
    (run flag env cwd fs).1.take (preComputeTrace flag env).length =
      preComputeTrace flag env := by
  refine ⟨q1_hist_fills cwd, ?_, ?_⟩
  · cases flag <;> cases henv : env "USER" <;>
      simp [preComputeTrace, setupBackend, henv, isReadOrMaterialize]
  · cases flag <;> cases henv : env "USER" <;> cases hfs : fs (data_url cwd) <;>
      simp [run, preComputeTrace, setupBackend, compute, evalFills, evalColumn,
        q1_hist, fill, Double, events_source, henv, hfs, bind, Except.bind,
        List.take]

/-- Claim C10: with the TaskVine backend selected, the scheduler session
name is exactly the `USER` environment value concatenated with
`-coffea-example-4`; when `USER` is unset, the run raises `KeyError` during
backend setup, with an empty action trace — before any file is read or any
histogram is constructed. -/
theorem C10_vine_name_keyerror (env : Env) (cwd : String) (fs : FileSys) :
    (∀ u, (vine_manager u).name = u ++ "-coffea-example-4") ∧
    (∀ u, env "USER" = some u →
      setupBackend true env =
        Except.ok (⟨some (Scheduler.taskvine (vine_manager u)), true⟩,
          [Act.vineManagerCreated (u ++ "-coffea-example-4")])) ∧
    (env "USER" = none →
      run true env cwd fs = ([], Except.error (PyErr.keyError "USER"))) := by
  refine ⟨fun u => rfl, fun u hu => ?_, fun hn => ?_⟩
  · simp [setupBackend, hu, vine_manager]
  · simp [run, setupBackend, hn]

/-- Witness for C10: a set `USER` yields the concatenated manager name, and
an unset `USER` aborts the run with `KeyError` and an empty trace. -/
theorem C10_vine_name_keyerror_witness :
    (envAlice "USER" = some "alice") ∧
    setupBackend true envAlice =
      Except.ok (⟨some (Scheduler.taskvine (vine_manager "alice")), true⟩,
        [Act.vineManagerCreated ("alice" ++ "-coffea-example-4")]) ∧
    (envEmpty "USER" = none) ∧
    run true envEmpty "/w" fsAll = ([], Except.error (PyErr.keyError "USER")) :=
  ⟨rfl, (C10_vine_name_keyerror envAlice "/w" fsAll).2.1 "alice" rfl, rfl,
    (C10_vine_name_keyerror envEmpty "/w" fsAll).2.2 rfl⟩

/-- Claim C5: after the script's `filterwarnings("error", module="coffea.*")`
call, every warning whose module name matches `coffea.*` is dispatched to
the `error` action — escalated to a raised exception that, with no handler
defined anywhere in the script, aborts execution — whatever filters were
installed before. -/
theorem C5_coffea_warnings_escalate (initial : List WarnFilter) (m : String)
    (hm : reMatchCoffeaStar m = true) :
    warningAction (scriptFilters initial) m = "error" ∧
    raiseWarning (scriptFilters initial) m =
      Except.error (PyErr.warningEscalated m) := by
  have h1 : warningAction (scriptFilters initial) m = "error" := by
    simp [warningAction, scriptFilters, filterwarnings, List.find?, hm]
  exact ⟨h1, by simp [raiseWarning, h1]⟩

/-- Witness for C5 on a concrete coffea module name with an empty initial
filter list. -/
theorem C5_coffea_warnings_escalate_witness :
    reMatchCoffeaStar "coffea.nanoevents" = true ∧
    (warningAction (scriptFilters []) "coffea.nanoevents" = "error" ∧
      raiseWarning (scriptFilters []) "coffea.nanoevents" =
        Except.error (PyErr.warningEscalated "coffea.nanoevents")) :=
  ⟨by decide, C5_coffea_warnings_escalate [] "coffea.nanoevents" (by decide)⟩

/-- Claim C2: for every fixed input file, the computed histogram contents
are identical whether the execution-backend flag is `true` (TaskVine
manager with worker transfers) or `false` (generic distributed client):
whenever both runs produce a histogram, it is the same histogram. -/
theorem C2_backend_flag_irrelevant (env : Env) (cwd : String) (fs : FileSys)
    (m₁ m₂ : MaterializedHist)
    (h₁ : (run true env cwd fs).2 = Except.ok m₁)
    (h₂ : (run false env cwd fs).2 = Except.ok m₂) :
    m₁ = m₂ := by
  cases henv : env "USER" <;> cases hfs : fs (data_url cwd) <;>
    simp_all [run, setupBackend, compute, evalFills, evalColumn, q1_hist,
      fill, Double, events_source, bind, Except.bind]

/-- Witness for C2: both backends over the fixture file yield `histW`. -/
theorem C2_backend_flag_irrelevant_witness :
    ((run true envAlice "/w" fsAll).2 = Except.ok histW) ∧
    ((run false envAlice "/w" fsAll).2 = Except.ok histW) ∧ histW = histW :=
  ⟨rfl, rfl, C2_backend_flag_irrelevant envAlice "/w" fsAll histW histW rfl rfl⟩

/-- Claim C3: the computation from file contents to filled histogram is
deterministic — the run is a pure function, and it depends on the file
system only through the contents found at the resolved data URL, so any
two executions over the same file contents coincide, trace and result. -/
theorem C3_deterministic (flag : Bool) (env : Env) (cwd : String)
    (fs₁ fs₂ : FileSys) (hfs : fs₁ (data_url cwd) = fs₂ (data_url cwd)) :
    run flag env cwd fs₁ = run flag env cwd fs₂ := by
  have hev : evalFills fs₁ (q1_hist cwd).fills = evalFills fs₂ (q1_hist cwd).fills := by
    simp [q1_hist, fill, Double, evalFills, evalColumn, events_source, hfs]
  have hc : ∀ args, compute fs₁ (q1_hist cwd) args = compute fs₂ (q1_hist cwd) args := by
    intro args
    unfold compute
    rw [hev]
  unfold run
  cases setupBackend flag env with
  | error e => rfl
  | ok p =>
    obtain ⟨args, as₀⟩ := p
    simp only [hc args]

/-- Witness for C3: two different file systems agreeing on the data URL
give identical runs. -/
theorem C3_deterministic_witness :
    (fsAll (data_url "/w") = fsOnlyData (data_url "/w")) ∧
    run true envAlice "/w" fsAll = run true envAlice "/w" fsOnlyData :=
  ⟨rfl, C3_deterministic true envAlice "/w" fsAll fsOnlyData rfl⟩

/-- Claim C4: if the input file at the resolved data URL is absent, the run
ends in an error and no histogram value is ever produced: the result is not
`ok` for any histogram (in particular no partial or empty one is silently
returned) and the trace contains no materialization action. -/
theorem C4_missing_file_fails (flag : Bool) (env : Env) (cwd : String)
    (fs : FileSys) (habs : fs (data_url cwd) = none) :
    isOkB (run flag env cwd fs).2 = false ∧
    ((run flag env cwd fs).1.all fun a => !isMaterializeAct a) = true := by
  cases flag <;> cases henv : env "USER" <;>
    simp [run, setupBackend, compute, evalFills, evalColumn, q1_hist, fill,
      Double, events_source, henv, habs, bind, Except.bind, isOkB,
      isMaterializeAct]

/-- Witness for C4 on the empty file system. -/
theorem C4_missing_file_fails_witness :
    (fsNone (data_url "/w") = none) ∧
    (isOkB (run true envAlice "/w" fsNone).2 = false ∧
      ((run true envAlice "/w" fsNone).1.all fun a => !isMaterializeAct a) = true) :=
  ⟨rfl, C4_missing_file_fails true envAlice "/w" fsNone rfl⟩

/-- Claim C8: materialization is all-or-nothing per compute call: an `ok`
result is always the histogram obtained from a successful evaluation of
every recorded fill, binned in full, and any failure in that evaluation
makes the whole compute call fail — no partially filled histogram is ever
observable. -/
theorem C8_all_or_nothing (fs : FileSys) (h : LazyHist) (args : ExecutorArgs) :
    (∀ m as, compute fs h args = Except.ok (m, as) →
      ∃ xs acts, evalFills fs h.fills = Except.ok (xs, acts) ∧
        m.axis = h.axis ∧ m.counts = fillCounts h.axis xs) ∧
    (∀ e, evalFills fs h.fills = Except.error e →
      compute fs h args = Except.error e) := by
  constructor
  · intro m as hok
    obtain ⟨xs, acts, hev, hm, _⟩ := compute_ok_shape hok
    exact ⟨xs, acts, hev, by rw [hm], by rw [hm]⟩
  · intro e he
    unfold compute
    rw [he]
    rfl

/-- Witness for C8: the first branch applied to a successful compute over
the fixture file. -/
theorem C8_all_or_nothing_witness :
    (compute fsAll (q1_hist "/w") noArgs = Except.ok (histW, actsW)) ∧
    (∃ xs acts, evalFills fsAll (q1_hist "/w").fills = Except.ok (xs, acts) ∧
      histW.axis = (q1_hist "/w").axis ∧
      histW.counts = fillCounts (q1_hist "/w").axis xs) :=
  ⟨rfl, (C8_all_or_nothing fsAll (q1_hist "/w") noArgs).1 histW actsW rfl⟩
